import Mathlib

/-!
Shallow embedding of the connection/session multiplexing and
process-persistence layer of a remote development server.

Embedded source:
* the session dispatcher `Vscode.connect` and its offline-connection
  retention policy (src/lib/vscode/src/vs/server/node/server.ts);
* the persistent terminal process and its registry
  (src/lib/vscode/src/vs/platform/terminal/node/ptyService.ts).

External collaborators (the `Connection` subclasses, the underlying
`TerminalProcess`, timers and barriers) are modelled by the fields and
oracle parameters the embedded code reads: timers by their scheduled
flags, the orphan barrier by its auto-open deadline, the child process
spawn result by an `Option ITerminalLaunchError` argument, and wall
clock readings by explicit time arguments.
-/

/-- Connection types of the remote-agent protocol
(`ConnectionType` in vs/platform/remote/common/remoteAgentConnection). -/
inductive ConnectionType where
  | management
  | extensionHost
  | tunnel
  deriving DecidableEq, Repr

/-- A Connection registered by the session dispatcher. The class lives in
vs/server/node/connection.ts (an external collaborator here); the dispatcher
reads its reconnection `token` and its `offline` marker, which holds the
timestamp of the last disconnection and is undefined while a socket is
bound. -/
structure Connection where
  token : String
  offline : Option Int
  deriving DecidableEq, Repr

/-- Hardcoded retention bound of the dispatcher
(server.ts line 67: `private readonly maxExtraOfflineConnections = 0`). -/
def maxExtraOfflineConnections : Nat := 0

/-- JS `connections.has(token)` on the per-type token map (iteration order of
the map is insertion order, modelled by the list order). -/
def hasToken (conns : List Connection) (token : String) : Bool :=
  conns.any (fun c => c.token == token)

/-- The connections whose `offline` marker is set, in map iteration order
(server.ts lines 200-201). -/
def offlineConnections (conns : List Connection) : List Connection :=
  conns.filter (fun c => c.offline.isSome)

/-- The dispatcher's disposal scan (server.ts lines 199-206): of the offline
connections, in map order, dispose the first
`offline.length - maxExtraOfflineConnections`. -/
def disposeOldOfflineConnections (conns : List Connection) : List Connection :=
  let offline := offlineConnections conns
  offline.take (offline.length - maxExtraOfflineConnections)

/-- Handshake acknowledgement (server.ts lines 151-155): `type: ok` for
Management, a possibly absent debug port for ExtensionHost. -/
inductive Ack where
  | ok
  | extensionHostOk (debugPort : Option Nat)
  deriving DecidableEq, Repr

/-- Outcome classification of `Vscode.connect` for one handshake. -/
inductive ConnectResult where
  | reconnected
  | duplicateToken
  | unrecognizedToken
  | newConnection
  | tunneled
  deriving DecidableEq, Repr

/-- Observable outcome of one `Vscode.connect` call on the per-type token
map: the classification, the map afterwards, the acknowledgement sent (none
when the handshake throws), whether `_onDidClientConnect` fired, and the
tokens passed to `dispose()` by the retention scan. -/
structure ConnectOutcome where
  result : ConnectResult
  connections : List Connection
  ack : Option Ack
  clientConnectFired : Bool
  disposedTokens : List String
  deriving DecidableEq, Repr

/-- Embedding of `Vscode.connect` (server.ts lines 138-197) acting on the
token map of the requested connection type. A disposed connection's
`onClose` handler deletes it from the map (lines 188-191), so the map after
the retention scan drops the disposed tokens. -/
def Vscode.connect (ctype : ConnectionType) (reconnection : Bool) (token : String)
    (conns : List Connection) : ConnectOutcome :=
  match ctype with
  | ConnectionType.tunnel =>
    { result := ConnectResult.tunneled, connections := conns, ack := none,
      clientConnectFired := false, disposedTokens := [] }
  | _ =>
    let okAck : Ack :=
      if ctype = ConnectionType.extensionHost then Ack.extensionHostOk none else Ack.ok
    if reconnection && hasToken conns token then
      { result := ConnectResult.reconnected,
        connections := conns.map
          (fun c => if c.token == token then { c with offline := none } else c),
        ack := some okAck, clientConnectFired := false, disposedTokens := [] }
    else if reconnection || hasToken conns token then
      { result := if reconnection then ConnectResult.unrecognizedToken
                  else ConnectResult.duplicateToken,
        connections := conns, ack := none, clientConnectFired := false,
        disposedTokens := [] }
    else
      let newConn : Connection := { token := token, offline := none }
      let registered := conns ++ [newConn]
      let disposed := disposeOldOfflineConnections registered
      let disposedTokens := disposed.map (fun c => c.token)
      { result := ConnectResult.newConnection,
        connections := registered.filter (fun c => !(disposedTokens.contains c.token)),
        ack := some okAck,
        clientConnectFired := ctype == ConnectionType.management,
        disposedTokens := disposedTokens }

/-- C1: for Management and ExtensionHost handshakes, a non-reconnection
handshake on a token that is already registered fails with DuplicateToken,
a reconnection handshake on an unknown token fails with UnrecognizedToken,
and in both failure cases the connection table is unchanged (no new
Connection registered). -/
theorem connect_token_errors (ctype : ConnectionType)
    (hty : ctype = ConnectionType.management ∨ ctype = ConnectionType.extensionHost)
    (token : String) (conns : List Connection) :
    (hasToken conns token = true →
      (Vscode.connect ctype false token conns).result = ConnectResult.duplicateToken
      ∧ (Vscode.connect ctype false token conns).connections = conns)
    ∧ (hasToken conns token = false →
      (Vscode.connect ctype true token conns).result = ConnectResult.unrecognizedToken
      ∧ (Vscode.connect ctype true token conns).connections = conns) := by
  rcases hty with h | h <;> subst h <;>
    exact ⟨fun hh => by simp [Vscode.connect, hh], fun hh => by simp [Vscode.connect, hh]⟩

/-- Witness for C1 at concrete inputs: a duplicate non-reconnection
handshake and an unrecognized reconnection handshake, both on Management. -/
theorem connect_token_errors_witness :
    (Vscode.connect ConnectionType.management false "a"
        [{ token := "a", offline := none }]).result = ConnectResult.duplicateToken
    ∧ (Vscode.connect ConnectionType.management true "b" []).result
        = ConnectResult.unrecognizedToken :=
  ⟨((connect_token_errors ConnectionType.management (Or.inl rfl) "a"
      [{ token := "a", offline := none }]).1 (by decide)).1,
   ((connect_token_errors ConnectionType.management (Or.inl rfl) "b" []).2 (by decide)).1⟩

/-- Insertion step of the oldest-first ordering on disconnection timestamps
used to state the retention policy of §4.3 of the spec. -/
def insertByDisconnection (c : Connection) : List Connection → List Connection
  | [] => [c]
  | d :: ds =>
    if c.offline.getD 0 ≤ d.offline.getD 0 then c :: d :: ds
    else d :: insertByDisconnection c ds

/-- Oldest-first insertion sort on disconnection timestamps. -/
def sortByDisconnection : List Connection → List Connection
  | [] => []
  | c :: cs => insertByDisconnection c (sortByDisconnection cs)

/-- Modelled from the spec (§4.3): the connections the retention policy
selects for disposal — the offline connections of the type, sorted
oldest-first by disconnection time, all but the newest
`maxExtraOfflineConnections` of them. -/
def oldestExcessOfflineConnections (conns : List Connection) : List Connection :=
  let sorted := sortByDisconnection (offlineConnections conns)
  sorted.take (sorted.length - maxExtraOfflineConnections)

theorem insertByDisconnection_perm (c : Connection) (l : List Connection) :
    (insertByDisconnection c l).Perm (c :: l) := by
  induction l with
  | nil => exact List.Perm.refl _
  | cons d ds ih =>
    by_cases h : c.offline.getD 0 ≤ d.offline.getD 0
    · simp [insertByDisconnection, h]
    · simp only [insertByDisconnection, if_neg h]
      exact (List.Perm.cons d ih).trans (List.Perm.swap c d ds)

theorem sortByDisconnection_perm (l : List Connection) :
    (sortByDisconnection l).Perm l := by
  induction l with
  | nil => exact List.Perm.refl _
  | cons c cs ih =>
    exact (insertByDisconnection_perm c (sortByDisconnection cs)).trans
      (List.Perm.cons c ih)

theorem mem_disposeOld {c : Connection} {conns : List Connection}
    (h : c ∈ disposeOldOfflineConnections conns) :
    c ∈ conns ∧ c.offline.isSome = true := by
  have hmem : c ∈ offlineConnections conns :=
    List.take_subset _ _ h
  simpa [offlineConnections, List.mem_filter] using hmem

theorem disposeOld_eq_offline (conns : List Connection) :
    disposeOldOfflineConnections conns = offlineConnections conns := by
  simp [disposeOldOfflineConnections, maxExtraOfflineConnections]

theorem connect_new_eq (ctype : ConnectionType)
    (hne : ctype ≠ ConnectionType.tunnel)
    (token : String) (conns : List Connection)
    (hfresh : hasToken conns token = false) :
    Vscode.connect ctype false token conns =
      { result := ConnectResult.newConnection,
        connections := (conns ++ [Connection.mk token none]).filter
          (fun c =>
            !(((disposeOldOfflineConnections
                (conns ++ [Connection.mk token none])).map
                  (fun d => d.token)).contains c.token)),
        ack := some (if ctype = ConnectionType.extensionHost then
            Ack.extensionHostOk none else Ack.ok),
        clientConnectFired := ctype == ConnectionType.management,
        disposedTokens := (disposeOldOfflineConnections
          (conns ++ [Connection.mk token none])).map (fun d => d.token) } := by
  cases ctype with
  | tunnel => exact absurd rfl hne
  | management => simp [Vscode.connect, hfresh]
  | extensionHost => simp [Vscode.connect, hfresh]

theorem offline_filtered_out (conns : List Connection) :
    offlineConnections (conns.filter
      (fun c =>
        !(((disposeOldOfflineConnections conns).map (fun d => d.token)).contains
          c.token))) = [] := by
  apply List.filter_eq_nil_iff.mpr
  intro c hc
  rcases List.mem_filter.mp hc with ⟨hmem, hkeep⟩
  intro hsome
  have hdisp : c ∈ disposeOldOfflineConnections conns := by
    rw [disposeOld_eq_offline]
    exact List.mem_filter.mpr ⟨hmem, hsome⟩
  have htok : c.token ∈ (disposeOldOfflineConnections conns).map (fun d => d.token) :=
    List.mem_map.mpr ⟨c, hdisp, rfl⟩
  have hcont : ((disposeOldOfflineConnections conns).map
      (fun d => d.token)).contains c.token = true := by
    simpa [List.contains] using htok
  rw [hcont] at hkeep
  exact Bool.noConfusion hkeep

/-- C4: after every new (non-reconnection) Management or ExtensionHost
registration, the tokens the dispatcher disposes are exactly (as a multiset)
the offline connections of that type sorted oldest-first by disconnection
time minus the newest maxExtraOfflineConnections, and afterwards the number
of offline connections of that type is at most the configured bound. -/
theorem connect_disposes_oldest_offline (ctype : ConnectionType)
    (hty : ctype = ConnectionType.management ∨ ctype = ConnectionType.extensionHost)
    (token : String) (conns : List Connection)
    (hfresh : hasToken conns token = false) :
    ((Vscode.connect ctype false token conns).disposedTokens).Perm
      ((oldestExcessOfflineConnections
          (conns ++ [Connection.mk token none])).map (fun d => d.token))
    ∧ (offlineConnections
        (Vscode.connect ctype false token conns).connections).length
        ≤ maxExtraOfflineConnections := by
  have hne : ctype ≠ ConnectionType.tunnel := by
    rcases hty with h | h <;> subst h <;> intro hcontra <;> cases hcontra
  rw [connect_new_eq ctype hne token conns hfresh]
  constructor
  · have hperm : (disposeOldOfflineConnections
        (conns ++ [Connection.mk token none])).Perm
        (oldestExcessOfflineConnections (conns ++ [Connection.mk token none])) := by
      rw [disposeOld_eq_offline]
      simp only [oldestExcessOfflineConnections, maxExtraOfflineConnections,
        Nat.sub_zero, List.take_length]
      exact (sortByDisconnection_perm _).symm
    exact hperm.map (fun d => d.token)
  · simp only [offline_filtered_out, List.length_nil]
    exact Nat.zero_le _

/-- Witness for C4 at a concrete input: one registered offline Management
connection plus a fresh token. -/
theorem connect_disposes_oldest_offline_witness :
    ((Vscode.connect ConnectionType.management false "b"
        [Connection.mk "a" (some 5)]).disposedTokens).Perm
      ((oldestExcessOfflineConnections
          [Connection.mk "a" (some 5), Connection.mk "b" none]).map (fun d => d.token))
    ∧ (offlineConnections
        (Vscode.connect ConnectionType.management false "b"
          [Connection.mk "a" (some 5)]).connections).length
        ≤ maxExtraOfflineConnections :=
  connect_disposes_oldest_offline ConnectionType.management (Or.inl rfl) "b"
    [Connection.mk "a" (some 5)] (by decide)

theorem fresh_token_not_disposed (token : String) (conns : List Connection)
    (hfresh : hasToken conns token = false) :
    ((disposeOldOfflineConnections (conns ++ [Connection.mk token none])).map
      (fun d => d.token)).contains token = false := by
  cases hcontains : ((disposeOldOfflineConnections
      (conns ++ [Connection.mk token none])).map (fun d => d.token)).contains token with
  | false => rfl
  | true =>
    exfalso
    have hmemtok : token ∈ (disposeOldOfflineConnections
        (conns ++ [Connection.mk token none])).map (fun d => d.token) := by
      simpa [List.contains] using hcontains
    rcases List.mem_map.mp hmemtok with ⟨c, hc, hctok⟩
    rcases mem_disposeOld hc with ⟨hmem, hsome⟩
    rcases List.mem_append.mp hmem with hin | hin
    · have hhas : hasToken conns token = true := by
        unfold hasToken
        exact List.any_eq_true.mpr ⟨c, hin, by simp [hctok]⟩
      rw [hhas] at hfresh
      exact Bool.noConfusion hfresh
    · have hceq : c = Connection.mk token none := by simpa using hin
      subst hceq
      simp at hsome

/-- C8 counterexample: a successful new ExtensionHost handshake is accepted
and registered, yet the client-connected notification is not fired. -/
theorem connect_extensionHost_counterexample :
    (Vscode.connect ConnectionType.extensionHost false "t" []).result
      = ConnectResult.newConnection
    ∧ (Vscode.connect ConnectionType.extensionHost false "t" []).clientConnectFired
      = false :=
  ⟨rfl, rfl⟩

/-- C8 amended: for every successful new (non-reconnection) handshake of type
Management or ExtensionHost the dispatcher sends the acknowledgement,
constructs a Connection and registers it in the token table; the
client-connected notification is emitted exactly for Management connections
(an ExtensionHost registration does not fire it). -/
theorem connect_new_registration (ctype : ConnectionType)
    (hty : ctype = ConnectionType.management ∨ ctype = ConnectionType.extensionHost)
    (token : String) (conns : List Connection)
    (hfresh : hasToken conns token = false) :
    (Vscode.connect ctype false token conns).result = ConnectResult.newConnection
    ∧ (Vscode.connect ctype false token conns).ack
        = some (if ctype = ConnectionType.extensionHost then
            Ack.extensionHostOk none else Ack.ok)
    ∧ hasToken (Vscode.connect ctype false token conns).connections token = true
    ∧ ((Vscode.connect ctype false token conns).clientConnectFired = true
        ↔ ctype = ConnectionType.management) := by
  have hne : ctype ≠ ConnectionType.tunnel := by
    rcases hty with h | h <;> subst h <;> intro hcontra <;> cases hcontra
  rw [connect_new_eq ctype hne token conns hfresh]
  refine ⟨rfl, rfl, ?_, ?_⟩
  · unfold hasToken
    apply List.any_eq_true.mpr
    refine ⟨Connection.mk token none, ?_, by simp⟩
    apply List.mem_filter.mpr
    refine ⟨List.mem_append.mpr (Or.inr (by simp)), ?_⟩
    show (!(((disposeOldOfflineConnections
        (conns ++ [Connection.mk token none])).map (fun d => d.token)).contains
          token)) = true
    rw [fresh_token_not_disposed token conns hfresh]
    rfl
  · rcases hty with h | h <;> subst h <;> simp

/-- Witness for C8 amended, at one Management and one ExtensionHost
handshake on fresh tokens. -/
theorem connect_new_registration_witness :
    hasToken (Vscode.connect ConnectionType.management false "m" []).connections "m"
      = true
    ∧ ((Vscode.connect ConnectionType.extensionHost false "x" []).clientConnectFired
        = true ↔ ConnectionType.extensionHost = ConnectionType.management) :=
  ⟨(connect_new_registration ConnectionType.management (Or.inl rfl) "m" []
      (by decide)).2.2.1,
   (connect_new_registration ConnectionType.extensionHost (Or.inr rfl) "x" []
      (by decide)).2.2.2⟩

/-- C9: the retention parameter is the hardcoded constant 0, not a
configurable option, so the disposal scan selects every offline connection,
and after every new Management or ExtensionHost registration the dispatcher
disposes every connection of that type whose offline marker is set. -/
theorem maxExtraOfflineConnections_is_zero :
    maxExtraOfflineConnections = 0
    ∧ (∀ conns, disposeOldOfflineConnections conns = offlineConnections conns)
    ∧ (∀ ctype, (ctype = ConnectionType.management
          ∨ ctype = ConnectionType.extensionHost) →
        ∀ token conns, hasToken conns token = false →
        (Vscode.connect ctype false token conns).disposedTokens
          = (offlineConnections (conns ++ [Connection.mk token none])).map
              (fun d => d.token)) := by
  refine ⟨rfl, disposeOld_eq_offline, ?_⟩
  intro ctype hty token conns hfresh
  have hne : ctype ≠ ConnectionType.tunnel := by
    rcases hty with h | h <;> subst h <;> intro hcontra <;> cases hcontra
  rw [connect_new_eq ctype hne token conns hfresh]
  simp only [disposeOld_eq_offline]

/-- Witness for C9 at a concrete offline Management connection. -/
theorem maxExtraOfflineConnections_is_zero_witness :
    (Vscode.connect ConnectionType.management false "b"
        [Connection.mk "a" (some 5)]).disposedTokens
      = (offlineConnections
          ([Connection.mk "a" (some 5)] ++ [Connection.mk "b" none])).map
            (fun d => d.token) :=
  maxExtraOfflineConnections_is_zero.2.2 ConnectionType.management (Or.inl rfl) "b"
    [Connection.mk "a" (some 5)] (by decide)

/-- Launch error reported by the underlying terminal process
(`ITerminalLaunchError` in vs/platform/terminal/common/terminal). -/
structure ITerminalLaunchError where
  message : Option String
  code : Option Int
  deriving DecidableEq, Repr

/-- Observable effects a PersistentTerminalProcess produces: events fired on
its emitters and calls forwarded to the underlying TerminalProcess. -/
inductive PtyEvent where
  | processReady (pid : Int) (cwd : String)
  | processTitleChanged (title : String)
  | processReplay
  | clearUnacknowledgedChars
  | inputForwarded (data : String)
  | resizeRecorded (cols rows : Int)
  | resizeForwarded (cols rows : Int)
  | dataAcknowledged (charCount : Int)
  | shutdownRequested (immediate : Bool)
  deriving DecidableEq, Repr

/-- State of one PersistentTerminalProcess (ptyService.ts lines 201-403).
The two RunOnceScheduler grace timers are modelled by their isScheduled
flags, the AutoOpenBarrier by its auto-open deadline, and the underlying
TerminalProcess by the fields the wrapper reads of it (`currentTitle`, and
`terminalCwd` for what its getCwd reports). -/
structure PersistentTerminalProcess where
  persistentTerminalId : Nat
  workspaceId : String
  workspaceName : String
  shouldPersistTerminal : Bool
  isStarted : Bool
  inReplay : Bool
  disconnectRunner1 : Bool
  disconnectRunner2 : Bool
  orphanQuestionBarrier : Option Int
  orphanQuestionReplyTime : Int
  pid : Int
  cwd : String
  currentTitle : String
  terminalCwd : String
  deriving DecidableEq, Repr

/-- Constructor state (ptyService.ts lines 235-279): not started, not in
replay, both grace timers unarmed, no orphan barrier, pid -1, empty cwd. -/
def PersistentTerminalProcess.init (id : Nat) (workspaceId workspaceName : String)
    (shouldPersist : Bool) (title : String) : PersistentTerminalProcess :=
  { persistentTerminalId := id, workspaceId := workspaceId,
    workspaceName := workspaceName, shouldPersistTerminal := shouldPersist,
    isStarted := false, inReplay := false,
    disconnectRunner1 := false, disconnectRunner2 := false,
    orphanQuestionBarrier := none, orphanQuestionReplyTime := 0,
    pid := -1, cwd := "", currentTitle := title, terminalCwd := "" }

/-- `attach()` (line 281-283): cancel the long grace timer. -/
def PersistentTerminalProcess.attach (p : PersistentTerminalProcess) :
    PersistentTerminalProcess :=
  { p with disconnectRunner1 := false }

/-- `detach()` (lines 285-291): arm the long grace timer when the terminal
should persist, otherwise shut down immediately. -/
def PersistentTerminalProcess.detach (p : PersistentTerminalProcess) :
    PersistentTerminalProcess × List PtyEvent :=
  if p.shouldPersistTerminal then
    ({ p with disconnectRunner1 := true }, [])
  else
    (p, [PtyEvent.shutdownRequested true])

/-- `triggerReplay()` (lines 340-350): fire the replay event and clear the
unacknowledged character counter of the underlying process.  It does not
touch `_inReplay`. -/
def PersistentTerminalProcess.triggerReplay (p : PersistentTerminalProcess) :
    PersistentTerminalProcess × List PtyEvent :=
  (p, [PtyEvent.processReplay, PtyEvent.clearUnacknowledgedChars])

/-- Result of one `start()` call (lines 293-307): the returned launch-error
value, the state afterwards, whether the underlying process spawn was
attempted, and the events fired. -/
structure StartOutcome where
  error : Option ITerminalLaunchError
  state : PersistentTerminalProcess
  spawnAttempted : Bool
  events : List PtyEvent
  deriving DecidableEq, Repr

/-- `start()` (lines 293-307).  `spawnResult` is the launch-error value the
external `TerminalProcess.start()` resolves with (none on success). -/
def PersistentTerminalProcess.start (p : PersistentTerminalProcess)
    (spawnResult : Option ITerminalLaunchError) : StartOutcome :=
  if !p.isStarted then
    match spawnResult with
    | some err =>
      { error := some err, state := p, spawnAttempted := true, events := [] }
    | none =>
      { error := none, state := { p with isStarted := true },
        spawnAttempted := true, events := [] }
  else
    { error := none, state := p, spawnAttempted := false,
      events := [PtyEvent.processReady p.pid p.cwd,
        PtyEvent.processTitleChanged p.currentTitle]
        ++ p.triggerReplay.2 }

/-- `input(data)` (lines 311-316): dropped while in replay, otherwise
forwarded to the underlying process. -/
def PersistentTerminalProcess.input (p : PersistentTerminalProcess)
    (data : String) : List PtyEvent :=
  if p.inReplay then [] else [PtyEvent.inputForwarded data]

/-- `resize(cols, rows)` (lines 317-323): dropped while in replay, otherwise
recorded by the recorder and forwarded. -/
def PersistentTerminalProcess.resize (p : PersistentTerminalProcess)
    (cols rows : Int) : List PtyEvent :=
  if p.inReplay then []
  else [PtyEvent.resizeRecorded cols rows, PtyEvent.resizeForwarded cols rows]

/-- `acknowledgeDataEvent(charCount)` (lines 324-329): dropped while in
replay, otherwise forwarded. -/
def PersistentTerminalProcess.acknowledgeDataEvent (p : PersistentTerminalProcess)
    (charCount : Int) : List PtyEvent :=
  if p.inReplay then [] else [PtyEvent.dataAcknowledged charCount]

/-- `orphanQuestionReply()` (lines 360-367): record the reply time; if a
barrier is pending, drop and open it. -/
def PersistentTerminalProcess.orphanQuestionReply (p : PersistentTerminalProcess)
    (now : Int) : PersistentTerminalProcess :=
  let q := { p with orphanQuestionReplyTime := now }
  match q.orphanQuestionBarrier with
  | some _ => { q with orphanQuestionBarrier := none }
  | none => q

/-- `reduceGraceTime()` (lines 369-378): a no-op when the short timer is
already running; arm the short timer when only the long one is running. -/
def PersistentTerminalProcess.reduceGraceTime (p : PersistentTerminalProcess) :
    PersistentTerminalProcess :=
  if p.disconnectRunner2 then p
  else if p.disconnectRunner1 then { p with disconnectRunner2 := true }
  else p

/-- First suspension point of `_isOrphaned()` (lines 384-400): either the
immediate answer, or the barrier to be awaited. -/
inductive OrphanPhase where
  | immediateTrue
  | waiting
  deriving DecidableEq, Repr

/-- Entry of `_isOrphaned()` at wall-clock time `now` (lines 384-400): if a
grace timer is scheduled the process reports orphaned at once without
touching the barrier; otherwise a missing barrier is created with a
4000 ms auto-open deadline and the reply time reset, and the barrier is
awaited. -/
def PersistentTerminalProcess.isOrphanedEnter (p : PersistentTerminalProcess)
    (now : Int) : OrphanPhase × PersistentTerminalProcess :=
  if p.disconnectRunner1 || p.disconnectRunner2 then
    (OrphanPhase.immediateTrue, p)
  else
    match p.orphanQuestionBarrier with
    | none =>
      (OrphanPhase.waiting,
        { p with
            orphanQuestionBarrier := some (now + 4000),
            orphanQuestionReplyTime := 0 })
    | some _ => (OrphanPhase.waiting, p)

/-- Resumption of `_isOrphaned()` once the barrier wait completes at
wall-clock time `now` (line 401): orphaned when no reply was recorded
within the last 500 ms. -/
def PersistentTerminalProcess.isOrphanedResult (p : PersistentTerminalProcess)
    (now : Int) : Bool :=
  decide (now - p.orphanQuestionReplyTime > 500)

/-- Handler of the underlying process's ready event (lines 266-270):
record pid and cwd, re-fire the event. -/
def PersistentTerminalProcess.handleProcessReady (p : PersistentTerminalProcess)
    (pid : Int) (cwd : String) : PersistentTerminalProcess × List PtyEvent :=
  ({ p with pid := pid, cwd := cwd }, [PtyEvent.processReady pid cwd])

/-- Handler of the underlying process's title-change event (line 271). -/
def PersistentTerminalProcess.handleProcessTitleChanged
    (p : PersistentTerminalProcess) (title : String) :
    PersistentTerminalProcess × List PtyEvent :=
  ({ p with currentTitle := title }, [PtyEvent.processTitleChanged title])

/-- Expiry of the long grace timer (lines 248-251): shut down immediately;
a fired RunOnceScheduler is no longer scheduled. -/
def PersistentTerminalProcess.graceTimer1Fire (p : PersistentTerminalProcess) :
    PersistentTerminalProcess × List PtyEvent :=
  if p.disconnectRunner1 then
    ({ p with disconnectRunner1 := false }, [PtyEvent.shutdownRequested true])
  else (p, [])

/-- Expiry of the short grace timer (lines 252-255). -/
def PersistentTerminalProcess.graceTimer2Fire (p : PersistentTerminalProcess) :
    PersistentTerminalProcess × List PtyEvent :=
  if p.disconnectRunner2 then
    ({ p with disconnectRunner2 := false }, [PtyEvent.shutdownRequested true])
  else (p, [])

/-- One operation on a PersistentTerminalProcess, with the oracle inputs the
environment supplies (spawn result, wall-clock readings, external events). -/
inductive PtyOp where
  | attach
  | detach
  | start (spawnResult : Option ITerminalLaunchError)
  | input (data : String)
  | resize (cols rows : Int)
  | acknowledgeDataEvent (charCount : Int)
  | triggerReplay
  | orphanQuestionReply (now : Int)
  | reduceGraceTime
  | isOrphanedEnter (now : Int)
  | isOrphanedComplete (now : Int)
  | handleProcessReady (pid : Int) (cwd : String)
  | handleProcessTitleChanged (title : String)
  | graceTimer1Fire
  | graceTimer2Fire
  | shutdown (immediate : Bool)
  deriving DecidableEq, Repr

/-- Small-step semantics of one PersistentTerminalProcess: the state after
the operation and the observable effects it produces. -/
def ptpStep (op : PtyOp) (p : PersistentTerminalProcess) :
    PersistentTerminalProcess × List PtyEvent :=
  match op with
  | PtyOp.attach => (p.attach, [])
  | PtyOp.detach => p.detach
  | PtyOp.start spawnResult =>
    let o := p.start spawnResult
    (o.state, o.events)
  | PtyOp.input data => (p, p.input data)
  | PtyOp.resize cols rows => (p, p.resize cols rows)
  | PtyOp.acknowledgeDataEvent n => (p, p.acknowledgeDataEvent n)
  | PtyOp.triggerReplay => p.triggerReplay
  | PtyOp.orphanQuestionReply now => (p.orphanQuestionReply now, [])
  | PtyOp.reduceGraceTime => (p.reduceGraceTime, [])
  | PtyOp.isOrphanedEnter now => ((p.isOrphanedEnter now).2, [])
  | PtyOp.isOrphanedComplete _ => (p, [])
  | PtyOp.handleProcessReady pid cwd => p.handleProcessReady pid cwd
  | PtyOp.handleProcessTitleChanged title => p.handleProcessTitleChanged title
  | PtyOp.graceTimer1Fire => p.graceTimer1Fire
  | PtyOp.graceTimer2Fire => p.graceTimer2Fire
  | PtyOp.shutdown immediate => (p, [PtyEvent.shutdownRequested immediate])

/-- The states a PersistentTerminalProcess can reach from its constructor
state under any sequence of operations. -/
inductive PtpReachable : PersistentTerminalProcess → Prop where
  | init (id : Nat) (workspaceId workspaceName : String) (shouldPersist : Bool)
      (title : String) :
      PtpReachable (PersistentTerminalProcess.init id workspaceId workspaceName
        shouldPersist title)
  | step {p : PersistentTerminalProcess} (hp : PtpReachable p) (op : PtyOp) :
      PtpReachable (ptpStep op p).1

theorem ptpStep_preserves_inReplay (op : PtyOp) (p : PersistentTerminalProcess) :
    (ptpStep op p).1.inReplay = p.inReplay := by
  cases op with
  | attach => simp [ptpStep, PersistentTerminalProcess.attach]
  | detach =>
    by_cases h : p.shouldPersistTerminal <;>
      simp [ptpStep, PersistentTerminalProcess.detach, h]
  | start spawnResult =>
    cases hs : p.isStarted <;> cases spawnResult <;>
      simp [ptpStep, PersistentTerminalProcess.start, hs]
  | input data => rfl
  | resize cols rows => rfl
  | acknowledgeDataEvent n => rfl
  | triggerReplay => rfl
  | orphanQuestionReply now =>
    cases hb : p.orphanQuestionBarrier <;>
      simp [ptpStep, PersistentTerminalProcess.orphanQuestionReply, hb]
  | reduceGraceTime =>
    by_cases h2 : p.disconnectRunner2 <;> by_cases h1 : p.disconnectRunner1 <;>
      simp [ptpStep, PersistentTerminalProcess.reduceGraceTime, h1, h2]
  | isOrphanedEnter now =>
    by_cases hr : (p.disconnectRunner1 || p.disconnectRunner2) = true <;>
      cases hb : p.orphanQuestionBarrier <;>
      simp_all [ptpStep, PersistentTerminalProcess.isOrphanedEnter]
  | isOrphanedComplete now => rfl
  | handleProcessReady pid cwd =>
    simp [ptpStep, PersistentTerminalProcess.handleProcessReady]
  | handleProcessTitleChanged title =>
    simp [ptpStep, PersistentTerminalProcess.handleProcessTitleChanged]
  | graceTimer1Fire =>
    by_cases h : p.disconnectRunner1 <;>
      simp [ptpStep, PersistentTerminalProcess.graceTimer1Fire, h]
  | graceTimer2Fire =>
    by_cases h : p.disconnectRunner2 <;>
      simp [ptpStep, PersistentTerminalProcess.graceTimer2Fire, h]
  | shutdown immediate => rfl

/-- C10: in every reachable state of a PersistentTerminalProcess the
`_inReplay` flag is false — no operation, triggerReplay included, ever sets
it — so input, resize and acknowledgeDataEvent always forward to the
underlying terminal process and the drop-during-replay branch never runs. -/
theorem inReplay_never_true (p : PersistentTerminalProcess)
    (hp : PtpReachable p) :
    p.inReplay = false
    ∧ (∀ data, p.input data = [PtyEvent.inputForwarded data])
    ∧ (∀ cols rows, p.resize cols rows
        = [PtyEvent.resizeRecorded cols rows, PtyEvent.resizeForwarded cols rows])
    ∧ (∀ charCount, p.acknowledgeDataEvent charCount
        = [PtyEvent.dataAcknowledged charCount])
    ∧ p.triggerReplay.1.inReplay = false := by
  have hfalse : p.inReplay = false := by
    induction hp with
    | init id workspaceId workspaceName shouldPersist title => rfl
    | step hq op ih => rw [ptpStep_preserves_inReplay]; exact ih
  refine ⟨hfalse, ?_, ?_, ?_, ?_⟩
  · intro data; simp [PersistentTerminalProcess.input, hfalse]
  · intro cols rows; simp [PersistentTerminalProcess.resize, hfalse]
  · intro charCount; simp [PersistentTerminalProcess.acknowledgeDataEvent, hfalse]
  · simpa [PersistentTerminalProcess.triggerReplay] using hfalse

/-- Witness for C10 at a concrete reachable state: the constructor state
after a detach step. -/
theorem inReplay_never_true_witness :
    (ptpStep PtyOp.detach
        (PersistentTerminalProcess.init 1 "ws" "name" true "sh")).1.inReplay = false
    ∧ (ptpStep PtyOp.detach
        (PersistentTerminalProcess.init 1 "ws" "name" true "sh")).1.input "x"
      = [PtyEvent.inputForwarded "x"] :=
  ⟨(inReplay_never_true _
      ((PtpReachable.init 1 "ws" "name" true "sh").step PtyOp.detach)).1,
   (inReplay_never_true _
      ((PtpReachable.init 1 "ws" "name" true "sh").step PtyOp.detach)).2.1 "x"⟩

/-- C3: start() is idempotent with respect to spawning.  On a not-yet-started
process it attempts the spawn, returns the launch-error value of the spawn
(none on success), marks the process started exactly when the spawn
succeeded, and fires nothing.  On an already-started process it does not
re-spawn, fires the ready and title notifications, triggers a replay of the
recorded buffer, and returns no error. -/
theorem start_idempotent (p : PersistentTerminalProcess)
    (spawnResult : Option ITerminalLaunchError) :
    (p.isStarted = false →
      (p.start spawnResult).spawnAttempted = true
      ∧ (p.start spawnResult).error = spawnResult
      ∧ (p.start spawnResult).state.isStarted = spawnResult.isNone
      ∧ (p.start spawnResult).events = [])
    ∧ (p.isStarted = true →
      (p.start spawnResult).spawnAttempted = false
      ∧ (p.start spawnResult).error = none
      ∧ (p.start spawnResult).state = p
      ∧ (p.start spawnResult).events
        = [PtyEvent.processReady p.pid p.cwd,
           PtyEvent.processTitleChanged p.currentTitle,
           PtyEvent.processReplay, PtyEvent.clearUnacknowledgedChars]) := by
  constructor
  · intro hs
    cases spawnResult <;>
      simp [PersistentTerminalProcess.start, hs]
  · intro hs
    simp [PersistentTerminalProcess.start, hs, PersistentTerminalProcess.triggerReplay]

/-- Witness for C3: a fresh process with a failing spawn, and a started
process whose second start fires ready, title and replay. -/
theorem start_idempotent_witness :
    ((PersistentTerminalProcess.init 1 "ws" "name" true "sh").start
        (some (ITerminalLaunchError.mk (some "boom") none))).error
      = some (ITerminalLaunchError.mk (some "boom") none)
    ∧ ({ PersistentTerminalProcess.init 1 "ws" "name" true "sh" with
          isStarted := true }.start none).events
      = [PtyEvent.processReady
          ({ PersistentTerminalProcess.init 1 "ws" "name" true "sh" with
              isStarted := true }).pid
          ({ PersistentTerminalProcess.init 1 "ws" "name" true "sh" with
              isStarted := true }).cwd,
         PtyEvent.processTitleChanged
          ({ PersistentTerminalProcess.init 1 "ws" "name" true "sh" with
              isStarted := true }).currentTitle,
         PtyEvent.processReplay, PtyEvent.clearUnacknowledgedChars] :=
  ⟨((start_idempotent (PersistentTerminalProcess.init 1 "ws" "name" true "sh")
      (some (ITerminalLaunchError.mk (some "boom") none))).1 rfl).2.1,
   ((start_idempotent
      { PersistentTerminalProcess.init 1 "ws" "name" true "sh" with
          isStarted := true } none).2 rfl).2.2.2⟩

/-- C5: attach() cancels the long grace timer; detach() arms the long grace
timer when shouldPersist is true and shuts the process down immediately,
with no grace period, when shouldPersist is false. -/
theorem attach_detach_grace (p : PersistentTerminalProcess) :
    p.attach = { p with disconnectRunner1 := false }
    ∧ (p.shouldPersistTerminal = true →
        p.detach = ({ p with disconnectRunner1 := true }, []))
    ∧ (p.shouldPersistTerminal = false →
        p.detach = (p, [PtyEvent.shutdownRequested true])) := by
  refine ⟨rfl, ?_, ?_⟩
  · intro hs; simp [PersistentTerminalProcess.detach, hs]
  · intro hs; simp [PersistentTerminalProcess.detach, hs]

/-- Witness for C5 on a persistent and on an ephemeral process. -/
theorem attach_detach_grace_witness :
    (PersistentTerminalProcess.init 1 "ws" "name" true "sh").detach
      = ({ PersistentTerminalProcess.init 1 "ws" "name" true "sh" with
            disconnectRunner1 := true }, [])
    ∧ (PersistentTerminalProcess.init 2 "ws" "name" false "sh").detach
      = (PersistentTerminalProcess.init 2 "ws" "name" false "sh",
         [PtyEvent.shutdownRequested true]) :=
  ⟨((attach_detach_grace (PersistentTerminalProcess.init 1 "ws" "name" true "sh")).2.1
      rfl),
   ((attach_detach_grace (PersistentTerminalProcess.init 2 "ws" "name" false "sh")).2.2
      rfl)⟩

/-- C2: isOrphaned resolves true immediately, without touching the barrier,
whenever either grace timer is scheduled; otherwise it waits on the orphan
barrier — created with a 4-second auto-open deadline and a reset reply time
when absent — and once the wait completes at time `u` it resolves true
exactly when no reply timestamp was recorded within the last 500 ms (a
reply within that window yields false). -/
theorem isOrphaned_spec (p : PersistentTerminalProcess) (t u : Int) :
    ((p.disconnectRunner1 = true ∨ p.disconnectRunner2 = true) →
      p.isOrphanedEnter t = (OrphanPhase.immediateTrue, p))
    ∧ (p.disconnectRunner1 = false → p.disconnectRunner2 = false →
      (p.isOrphanedEnter t).1 = OrphanPhase.waiting
      ∧ (p.orphanQuestionBarrier = none →
          (p.isOrphanedEnter t).2.orphanQuestionBarrier = some (t + 4000)
          ∧ (p.isOrphanedEnter t).2.orphanQuestionReplyTime = 0)
      ∧ (∀ b, p.orphanQuestionBarrier = some b → (p.isOrphanedEnter t).2 = p))
    ∧ (p.isOrphanedResult u = true ↔ u - p.orphanQuestionReplyTime > 500) := by
  refine ⟨?_, ?_, ?_⟩
  · intro hr
    have hb : (p.disconnectRunner1 || p.disconnectRunner2) = true := by
      rcases hr with h | h <;> simp [h]
    simp [PersistentTerminalProcess.isOrphanedEnter, hb]
  · intro h1 h2
    refine ⟨?_, ?_, ?_⟩
    · cases hb : p.orphanQuestionBarrier <;>
        simp [PersistentTerminalProcess.isOrphanedEnter, h1, h2, hb]
    · intro hb
      simp [PersistentTerminalProcess.isOrphanedEnter, h1, h2, hb]
    · intro b hb
      simp [PersistentTerminalProcess.isOrphanedEnter, h1, h2, hb]
  · simp [PersistentTerminalProcess.isOrphanedResult]

/-- Witness for C2: a process with the long timer armed answers immediately;
a quiet process opens a 4-second barrier; a reply 100 ms before the wait
completes yields false and one 600 ms before yields true. -/
theorem isOrphaned_spec_witness :
    ({ PersistentTerminalProcess.init 1 "ws" "name" true "sh" with
        disconnectRunner1 := true }.isOrphanedEnter 0
      = (OrphanPhase.immediateTrue,
         { PersistentTerminalProcess.init 1 "ws" "name" true "sh" with
            disconnectRunner1 := true }))
    ∧ ((PersistentTerminalProcess.init 1 "ws" "name" true "sh").isOrphanedEnter
        10).2.orphanQuestionBarrier = some 4010
    ∧ ({ PersistentTerminalProcess.init 1 "ws" "name" true "sh" with
          orphanQuestionReplyTime := 900 }.isOrphanedResult 1000 = true
        ↔ (1000 : Int) - 900 > 500)
    ∧ ({ PersistentTerminalProcess.init 1 "ws" "name" true "sh" with
          orphanQuestionReplyTime := 400 }.isOrphanedResult 1000 = true
        ↔ (1000 : Int) - 400 > 500) :=
  ⟨(isOrphaned_spec _ 0 0).1 (Or.inl rfl),
   (((isOrphaned_spec (PersistentTerminalProcess.init 1 "ws" "name" true "sh")
        10 0).2.1 rfl rfl).2.1 rfl).1,
   (isOrphaned_spec
      { PersistentTerminalProcess.init 1 "ws" "name" true "sh" with
          orphanQuestionReplyTime := 900 } 0 1000).2.2,
   (isOrphaned_spec
      { PersistentTerminalProcess.init 1 "ws" "name" true "sh" with
          orphanQuestionReplyTime := 400 } 0 1000).2.2⟩

/-- Errors the process registry surfaces to its RPC callers. -/
inductive PtyError where
  | unknownProcess (id : Nat)
  deriving DecidableEq, Repr

/-- The registry's `_ptys` map (ptyService.ts line 21), keyed by the numeric
process id, in insertion order. -/
def PtyService.getPty (ptys : List (Nat × PersistentTerminalProcess)) (id : Nat) :
    Option PersistentTerminalProcess :=
  (ptys.find? (fun q => q.1 == id)).map (fun q => q.2)

/-- In-place update of the entry for `id`. -/
def PtyService.setPty (ptys : List (Nat × PersistentTerminalProcess)) (id : Nat)
    (p : PersistentTerminalProcess) : List (Nat × PersistentTerminalProcess) :=
  ptys.map (fun q => if q.1 == id then (id, p) else q)

/-- `_throwIfNoPty(id)` (ptyService.ts lines 192-198). -/
def PtyService.throwIfNoPty (ptys : List (Nat × PersistentTerminalProcess))
    (id : Nat) : Except PtyError PersistentTerminalProcess :=
  match PtyService.getPty ptys id with
  | none => Except.error (PtyError.unknownProcess id)
  | some p => Except.ok p

/-- `attachToProcess(id)` (ptyService.ts lines 97-104): the lookup error is
caught and only logged, so the call resolves successfully either way. -/
def PtyService.attachToProcess (ptys : List (Nat × PersistentTerminalProcess))
    (id : Nat) : Except PtyError (List (Nat × PersistentTerminalProcess)) :=
  match PtyService.throwIfNoPty ptys id with
  | Except.ok p => Except.ok (PtyService.setPty ptys id p.attach)
  | Except.error _ => Except.ok ptys

/-- `detachFromProcess(id)` (ptyService.ts lines 106-108): the lookup error
propagates to the caller. -/
def PtyService.detachFromProcess (ptys : List (Nat × PersistentTerminalProcess))
    (id : Nat) :
    Except PtyError (List (Nat × PersistentTerminalProcess) × List PtyEvent) :=
  match PtyService.throwIfNoPty ptys id with
  | Except.ok p => Except.ok (PtyService.setPty ptys id p.detach.1, p.detach.2)
  | Except.error e => Except.error e

/-- `start(id)` (ptyService.ts lines 110-112). -/
def PtyService.start (ptys : List (Nat × PersistentTerminalProcess)) (id : Nat)
    (spawnResult : Option ITerminalLaunchError) : Except PtyError StartOutcome :=
  match PtyService.throwIfNoPty ptys id with
  | Except.ok p => Except.ok (p.start spawnResult)
  | Except.error e => Except.error e

/-- `input(id, data)` (ptyService.ts lines 116-118). -/
def PtyService.input (ptys : List (Nat × PersistentTerminalProcess)) (id : Nat)
    (data : String) : Except PtyError (List PtyEvent) :=
  match PtyService.throwIfNoPty ptys id with
  | Except.ok p => Except.ok (p.input data)
  | Except.error e => Except.error e

/-- `resize(id, cols, rows)` (ptyService.ts lines 119-121). -/
def PtyService.resize (ptys : List (Nat × PersistentTerminalProcess)) (id : Nat)
    (cols rows : Int) : Except PtyError (List PtyEvent) :=
  match PtyService.throwIfNoPty ptys id with
  | Except.ok p => Except.ok (p.resize cols rows)
  | Except.error e => Except.error e

/-- C6 counterexample: on an unknown id, attachToProcess resolves
successfully with the registry unchanged — the UnknownProcess error is
caught inside the method (ptyService.ts lines 98-103) and never surfaced
to the caller, contrary to the claim that all five operations fail. -/
theorem attachToProcess_unknown_swallowed :
    PtyService.attachToProcess [] 1 = Except.ok []
    ∧ (PtyService.attachToProcess [] 1).isOk = true :=
  ⟨rfl, rfl⟩

/-- C6 amended: for an id not in the registry, detach, start, input and
resize fail with an UnknownProcess error surfaced to the caller; attach
also hits the UnknownProcess error internally but catches and logs it,
resolving successfully with the registry unchanged. -/
theorem unknown_process_errors (ptys : List (Nat × PersistentTerminalProcess))
    (id : Nat) (hnone : PtyService.getPty ptys id = none) :
    PtyService.attachToProcess ptys id = Except.ok ptys
    ∧ PtyService.detachFromProcess ptys id
        = Except.error (PtyError.unknownProcess id)
    ∧ (∀ spawnResult, PtyService.start ptys id spawnResult
        = Except.error (PtyError.unknownProcess id))
    ∧ (∀ data, PtyService.input ptys id data
        = Except.error (PtyError.unknownProcess id))
    ∧ (∀ cols rows, PtyService.resize ptys id cols rows
        = Except.error (PtyError.unknownProcess id)) := by
  have hthrow : PtyService.throwIfNoPty ptys id
      = Except.error (PtyError.unknownProcess id) := by
    simp [PtyService.throwIfNoPty, hnone]
  refine ⟨?_, ?_, ?_, ?_, ?_⟩
  · simp [PtyService.attachToProcess, hthrow]
  · simp [PtyService.detachFromProcess, hthrow]
  · intro spawnResult; simp [PtyService.start, hthrow]
  · intro data; simp [PtyService.input, hthrow]
  · intro cols rows; simp [PtyService.resize, hthrow]

/-- Witness for C6 amended on the empty registry. -/
theorem unknown_process_errors_witness :
    PtyService.attachToProcess [] 2 = Except.ok []
    ∧ PtyService.detachFromProcess [] 2 = Except.error (PtyError.unknownProcess 2)
    ∧ PtyService.input [] 2 "x" = Except.error (PtyError.unknownProcess 2) :=
  ⟨(unknown_process_errors [] 2 rfl).1,
   (unknown_process_errors [] 2 rfl).2.1,
   (unknown_process_errors [] 2 rfl).2.2.2.1 "x"⟩

/-- Stored reference to one terminal instance in a workspace layout
(`ITerminalInstanceLayoutInfoById`). -/
structure ITerminalInstanceLayoutInfoById where
  terminal : Nat
  relativeSize : Rat
  deriving DecidableEq, Repr

/-- Stored layout of one tab (`ITerminalTabLayoutInfoById`). -/
structure ITerminalTabLayoutInfoById where
  isActive : Bool
  activePersistentTerminalId : Nat
  terminals : List ITerminalInstanceLayoutInfoById
  deriving DecidableEq, Repr

/-- Whole-workspace layout as stored by `setTerminalLayoutInfo`
(`ISetTerminalLayoutInfoArgs`). -/
structure ISetTerminalLayoutInfoArgs where
  workspaceId : String
  tabs : List ITerminalTabLayoutInfoById
  deriving DecidableEq, Repr

/-- Live descriptor of one persistent terminal (`IPtyHostDescriptionDto`). -/
structure IPtyHostDescriptionDto where
  id : Nat
  title : String
  pid : Int
  workspaceId : String
  workspaceName : String
  cwd : String
  isOrphan : Bool
  deriving DecidableEq, Repr

/-- Expanded instance entry: the live descriptor, or the null placeholder
substituted when the process could not be expanded. -/
structure ITerminalInstanceLayoutInfo where
  terminal : Option IPtyHostDescriptionDto
  relativeSize : Rat
  deriving DecidableEq, Repr

/-- Expanded tab (`ITerminalTabLayoutInfoDto`), null placeholders already
filtered out of its terminal list. -/
structure ITerminalTabLayoutInfoDto where
  isActive : Bool
  activePersistentTerminalId : Nat
  terminals : List ITerminalInstanceLayoutInfo
  deriving DecidableEq, Repr

/-- Synchronous projection of `isOrphaned()` used while expanding layouts:
phase 1 entered at time `now`; when it must wait, the barrier auto-opens at
its deadline with no reply arriving meanwhile, and the result is read
there. -/
def PersistentTerminalProcess.isOrphanedSync (p : PersistentTerminalProcess)
    (now : Int) : Bool :=
  match p.isOrphanedEnter now with
  | (OrphanPhase.immediateTrue, _) => true
  | (OrphanPhase.waiting, q) =>
    q.isOrphanedResult (q.orphanQuestionBarrier.getD (now + 4000))

/-- `_terminalToDto` (ptyService.ts lines 179-190), with the wall clock at
which the orphan probe resolves passed explicitly. -/
def PtyService.terminalToDto (id : Nat) (p : PersistentTerminalProcess)
    (now : Int) : IPtyHostDescriptionDto :=
  { id := id, title := p.currentTitle, pid := p.pid,
    workspaceId := p.workspaceId, workspaceName := p.workspaceName,
    cwd := p.terminalCwd, isOrphan := p.isOrphanedSync now }

/-- `_expandTerminalInstance` (ptyService.ts lines 161-177): a reference
whose process is gone yields the null placeholder instead of an error. -/
def PtyService.expandTerminalInstance (ptys : List (Nat × PersistentTerminalProcess))
    (t : ITerminalInstanceLayoutInfoById) (now : Int) : ITerminalInstanceLayoutInfo :=
  match PtyService.getPty ptys t.terminal with
  | some p =>
    { terminal := some (PtyService.terminalToDto t.terminal p now),
      relativeSize := t.relativeSize }
  | none => { terminal := none, relativeSize := t.relativeSize }

/-- `_expandTerminalTab` (ptyService.ts lines 151-159): expand every stored
reference, then filter out the null placeholders. -/
def PtyService.expandTerminalTab (ptys : List (Nat × PersistentTerminalProcess))
    (tab : ITerminalTabLayoutInfoById) (now : Int) : ITerminalTabLayoutInfoDto :=
  { isActive := tab.isActive,
    activePersistentTerminalId := tab.activePersistentTerminalId,
    terminals := (tab.terminals.map
        (fun t => PtyService.expandTerminalInstance ptys t now)).filter
      (fun term => term.terminal.isSome) }

/-- `getTerminalLayoutInfo` (ptyService.ts lines 139-149): expand each
stored tab and keep only the tabs that resolve to at least one live
terminal; no stored layout yields no result. -/
def PtyService.getTerminalLayoutInfo (ptys : List (Nat × PersistentTerminalProcess))
    (layouts : List (String × ISetTerminalLayoutInfoArgs)) (workspaceId : String)
    (now : Int) : Option (List ITerminalTabLayoutInfoDto) :=
  match (layouts.find? (fun q => q.1 == workspaceId)).map (fun q => q.2) with
  | some layout =>
    some ((layout.tabs.map (fun tab => PtyService.expandTerminalTab ptys tab now)).filter
      (fun t => decide (0 < t.terminals.length)))
  | none => none

theorem expandInstance_isSome (ptys : List (Nat × PersistentTerminalProcess))
    (t : ITerminalInstanceLayoutInfoById) (now : Int) :
    (PtyService.expandTerminalInstance ptys t now).terminal.isSome
      = (PtyService.getPty ptys t.terminal).isSome := by
  cases h : PtyService.getPty ptys t.terminal <;>
    simp [PtyService.expandTerminalInstance, h]

/-- C7: with a stored layout, getTerminalLayoutInfo always produces a
result; a stored reference whose process no longer exists expands to the
null placeholder instead of failing the call; each expanded tab keeps
exactly its live terminals; and a tab is dropped from the result exactly
when it resolves to zero live terminals. -/
theorem getTerminalLayoutInfo_spec (ptys : List (Nat × PersistentTerminalProcess))
    (layouts : List (String × ISetTerminalLayoutInfoArgs)) (workspaceId : String)
    (layout : ISetTerminalLayoutInfoArgs) (now : Int)
    (hws : (layouts.find? (fun q => q.1 == workspaceId)).map (fun q => q.2)
      = some layout) :
    (PtyService.getTerminalLayoutInfo ptys layouts workspaceId now).isSome = true
    ∧ (∀ t : ITerminalInstanceLayoutInfoById,
        PtyService.getPty ptys t.terminal = none →
        PtyService.expandTerminalInstance ptys t now
          = { terminal := none, relativeSize := t.relativeSize })
    ∧ (∀ tab : ITerminalTabLayoutInfoById,
        (PtyService.expandTerminalTab ptys tab now).terminals.length
          = (tab.terminals.filter
              (fun t => (PtyService.getPty ptys t.terminal).isSome)).length)
    ∧ PtyService.getTerminalLayoutInfo ptys layouts workspaceId now
        = some ((layout.tabs.map
            (fun tab => PtyService.expandTerminalTab ptys tab now)).filter
          (fun t => decide (0 < t.terminals.length))) := by
  refine ⟨?_, ?_, ?_, ?_⟩
  · simp [PtyService.getTerminalLayoutInfo, hws]
  · intro t ht
    simp [PtyService.expandTerminalInstance, ht]
  · intro tab
    simp only [PtyService.expandTerminalTab]
    rw [List.filter_map, List.length_map]
    congr 1
    apply List.filter_congr
    intro t ht
    simp only [Function.comp]
    exact expandInstance_isSome ptys t now
  · simp [PtyService.getTerminalLayoutInfo, hws]

/-- Witness for C7: a registry with one live process (id 1), a stored
layout for workspace ws referencing ids 1 and 2; the dead reference 2
expands to the null placeholder and the call still succeeds. -/
theorem getTerminalLayoutInfo_spec_witness :
    (PtyService.getTerminalLayoutInfo
        [(1, PersistentTerminalProcess.init 1 "ws" "name" true "sh")]
        [("ws", ISetTerminalLayoutInfoArgs.mk "ws"
          [ITerminalTabLayoutInfoById.mk true 1
            [ITerminalInstanceLayoutInfoById.mk 1 1,
             ITerminalInstanceLayoutInfoById.mk 2 1]])] "ws" 0).isSome = true
    ∧ PtyService.expandTerminalInstance
        [(1, PersistentTerminalProcess.init 1 "ws" "name" true "sh")]
        (ITerminalInstanceLayoutInfoById.mk 2 1) 0
      = { terminal := none, relativeSize := 1 }
    ∧ (PtyService.expandTerminalTab
        [(1, PersistentTerminalProcess.init 1 "ws" "name" true "sh")]
        (ITerminalTabLayoutInfoById.mk true 1
          [ITerminalInstanceLayoutInfoById.mk 1 1,
           ITerminalInstanceLayoutInfoById.mk 2 1]) 0).terminals.length
      = ([ITerminalInstanceLayoutInfoById.mk 1 1,
          ITerminalInstanceLayoutInfoById.mk 2 1].filter
          (fun t => (PtyService.getPty
            [(1, PersistentTerminalProcess.init 1 "ws" "name" true "sh")]
            t.terminal).isSome)).length :=
  ⟨(getTerminalLayoutInfo_spec
      [(1, PersistentTerminalProcess.init 1 "ws" "name" true "sh")]
      [("ws", ISetTerminalLayoutInfoArgs.mk "ws"
        [ITerminalTabLayoutInfoById.mk true 1
          [ITerminalInstanceLayoutInfoById.mk 1 1,
           ITerminalInstanceLayoutInfoById.mk 2 1]])] "ws"
      (ISetTerminalLayoutInfoArgs.mk "ws"
        [ITerminalTabLayoutInfoById.mk true 1
          [ITerminalInstanceLayoutInfoById.mk 1 1,
           ITerminalInstanceLayoutInfoById.mk 2 1]]) 0 rfl).1,
   (getTerminalLayoutInfo_spec
      [(1, PersistentTerminalProcess.init 1 "ws" "name" true "sh")]
      [("ws", ISetTerminalLayoutInfoArgs.mk "ws"
        [ITerminalTabLayoutInfoById.mk true 1
          [ITerminalInstanceLayoutInfoById.mk 1 1,
           ITerminalInstanceLayoutInfoById.mk 2 1]])] "ws"
      (ISetTerminalLayoutInfoArgs.mk "ws"
        [ITerminalTabLayoutInfoById.mk true 1
          [ITerminalInstanceLayoutInfoById.mk 1 1,
           ITerminalInstanceLayoutInfoById.mk 2 1]]) 0 rfl).2.1
      (ITerminalInstanceLayoutInfoById.mk 2 1) rfl,
   (getTerminalLayoutInfo_spec
      [(1, PersistentTerminalProcess.init 1 "ws" "name" true "sh")]
      [("ws", ISetTerminalLayoutInfoArgs.mk "ws"
        [ITerminalTabLayoutInfoById.mk true 1
          [ITerminalInstanceLayoutInfoById.mk 1 1,
           ITerminalInstanceLayoutInfoById.mk 2 1]])] "ws"
      (ISetTerminalLayoutInfoArgs.mk "ws"
        [ITerminalTabLayoutInfoById.mk true 1
          [ITerminalInstanceLayoutInfoById.mk 1 1,
           ITerminalInstanceLayoutInfoById.mk 2 1]]) 0 rfl).2.2.1
      (ITerminalTabLayoutInfoById.mk true 1
        [ITerminalInstanceLayoutInfoById.mk 1 1,
         ITerminalInstanceLayoutInfoById.mk 2 1])⟩
